import Mathlib

/-!
# Verification of the HOLO_kit creator-analysis pipeline

A shallow embedding, in Lean 4, of the core analysis pipeline of the
HOLO_kit repository (backend/agents/creator_analyzer.py and its helper
modules), together with theorems settling the behavioural claims made by
the natural-language specification.

Modelling conventions:
* Python dictionaries with a fixed key set are modelled as Lean structures.
* A Python value that may be `None` is modelled as an `Option`.
* Outbound HTTP / SDK calls are modelled by stub functions carried in an
  `Env` record: each stub returns the already-decoded payload that the
  corresponding Python helper would have produced from the wire response
  (an `Option`/empty value models an HTTP failure or raised exception that
  the helper catches).  All logic implemented in the repository itself
  (identifier extraction, deny-lists, mock fallbacks, filtering, sorting,
  truncation, formatting, state threading) is embedded, not stubbed.
* Python's `f"{x:.1f}"` on a quotient of machine integers is modelled by
  exact rational rounding of the first decimal digit (ties to even).  For
  every concrete input appearing in a theorem below the value is not a
  rounding tie, so the model and CPython agree there.
* `str.lower` / `str.upper` / `str.strip` are modelled by Lean's ASCII
  `String.toLower` / `String.toUpper` / `String.trim`; all strings the
  relevant code paths inspect are ASCII.
-/

namespace HoloKit

/-! ## Generic string machinery (models the `re` patterns actually used) -/

/-- Is `p` a (character) prefix of `l`? -/
def isPrefixL : List Char → List Char → Bool
  | [], _ => true
  | _ :: _, [] => false
  | p :: ps, c :: cs => p == c && isPrefixL ps cs

/-- Does `needle` occur as a contiguous substring of `hay`?
Models Python's `needle in hay`. -/
def containsSub (hay needle : List Char) : Bool :=
  match hay with
  | [] => needle.isEmpty
  | _ :: t => isPrefixL needle hay || containsSub t needle

/-- String-level wrapper for `containsSub`. -/
def strContains (hay needle : String) : Bool :=
  containsSub hay.toList needle.toList

/-- Maximal run of characters satisfying `cls` at the front of the list
(the greedy match of a character class). -/
def takeClass (cls : Char → Bool) : List Char → List Char
  | [] => []
  | c :: cs => if cls c then c :: takeClass cls cs else []

/-- `re.search` for a pattern of shape `LIT([cls]+)`: leftmost position
where the literal matches and at least one class character follows;
returns the greedy capture.  Failing positions are skipped, as the regex
engine does. -/
def searchLitClass (lit : List Char) (cls : Char → Bool) : List Char → Option String
  | [] => none
  | c :: cs =>
    if isPrefixL lit (c :: cs) then
      let run := takeClass cls ((c :: cs).drop lit.length)
      if run.isEmpty then searchLitClass lit cls cs else some (String.mk run)
    else searchLitClass lit cls cs

/-- `re.search` for a pattern of shape `LIT([cls]+)/.*`: like
`searchLitClass` but the greedy capture must be followed by a literal
slash (the class excludes the slash, so the greedy run cannot backtrack
into one). -/
def searchLitClassSlash (lit : List Char) (cls : Char → Bool) : List Char → Option String
  | [] => none
  | c :: cs =>
    if isPrefixL lit (c :: cs) then
      let rest := (c :: cs).drop lit.length
      let run := takeClass cls rest
      if run.isEmpty ∨ ¬ isPrefixL ['/'] (rest.drop run.length) then
        searchLitClassSlash lit cls cs
      else some (String.mk run)
    else searchLitClassSlash lit cls cs

/-- `re.search` for a pattern of shape `(?:LIT1|LIT2|…)([cls]+)`:
leftmost position where one of the alternative literals (tried in order)
matches and at least one class character follows; greedy capture. -/
def searchAltLitClass (lits : List (List Char)) (cls : Char → Bool) :
    List Char → Option String
  | [] => none
  | c :: cs =>
    match lits.find? (fun lit =>
        isPrefixL lit (c :: cs) &&
        !(takeClass cls ((c :: cs).drop lit.length)).isEmpty) with
    | some lit => some (String.mk (takeClass cls ((c :: cs).drop lit.length)))
    | none => searchAltLitClass lits cls cs

/-- `re.search` for a pattern of shape `(?:LIT1|LIT2|…)([cls]{n})`:
leftmost position where one of the alternative literals (tried in order)
matches and at least `n` class characters follow; captures exactly `n`. -/
def searchAltClassN (lits : List (List Char)) (cls : Char → Bool) (n : Nat) :
    List Char → Option String
  | [] => none
  | c :: cs =>
    match lits.find? (fun lit => isPrefixL lit (c :: cs)) with
    | some lit =>
      let run := takeClass cls ((c :: cs).drop lit.length)
      if n ≤ run.length then some (String.mk (run.take n))
      else searchAltClassN lits cls n cs
    | none => searchAltClassN lits cls n cs

/-- The character class `[a-zA-Z0-9_-]` shared by the GitHub and YouTube
identifier patterns. -/
def isWordChar (c : Char) : Bool :=
  c.isAlpha || c.isDigit || c == '_' || c == '-'

/-- Strip the given characters from both ends of a string (models Python's
`str.strip(chars)`). -/
def stripChars (cls : Char → Bool) (s : String) : String :=
  String.mk (((s.toList.dropWhile cls).reverse.dropWhile cls).reverse)

/-- Models Python's `str.title()` on ASCII text: a letter is uppercased
when the previous character is not a letter, lowercased otherwise. -/
def pyTitle (s : String) : String :=
  String.mk ((s.toList.foldl
    (fun (acc : List Char × Bool) c =>
      if c.isAlpha then
        (acc.1 ++ [if acc.2 then c.toLower else c.toUpper], true)
      else (acc.1 ++ [c], false))
    ([], false)).1)

/-- Character-level lowercase (Python `str.lower` on ASCII; the core
`String.toLower` is avoided because its byte-position recursion does not
reduce in the kernel). -/
def toLowerS (s : String) : String :=
  String.mk (s.toList.map Char.toLower)

/-- Character-level uppercase (Python `str.upper` on ASCII). -/
def toUpperS (s : String) : String :=
  String.mk (s.toList.map Char.toUpper)

/-- Python's `str.strip()` (no argument): whitespace off both ends. -/
def pyStrip (s : String) : String :=
  stripChars (fun c => c.isWhitespace) s

/-- Python's `str.startswith`. -/
def startsWithS (s pre : String) : Bool :=
  isPrefixL pre.toList s.toList

/-- Split on a single-character separator, keeping empty fields: models
Python's `str.split(sep)` for the one-character separators the code
uses. -/
def splitOnChar (sep : Char) : List Char → List (List Char)
  | [] => [[]]
  | c :: cs =>
    let r := splitOnChar sep cs
    if c = sep then [] :: r
    else
      match r with
      | [] => [[c]]
      | x :: xs => (c :: x) :: xs

/-- Replace every (non-overlapping, left-to-right) occurrence of `pat`,
with an explicit fuel so the recursion is structural; the callers pass
the input length, which always suffices since each step consumes at
least one character. -/
def replaceFuel (pat rep : List Char) : Nat → List Char → List Char
  | 0, l => l
  | _ + 1, [] => []
  | fuel + 1, c :: cs =>
    if isPrefixL pat (c :: cs) && !pat.isEmpty then
      rep ++ replaceFuel pat rep fuel ((c :: cs).drop pat.length)
    else c :: replaceFuel pat rep fuel cs

/-- Python's `str.replace` (replace all occurrences). -/
def pyReplace (s pat rep : String) : String :=
  String.mk (replaceFuel pat.toList rep.toList s.toList.length s.toList)

/-- Everything after the first colon, or the whole string when it has no
colon: models Python's `line.split(":", 1)[-1]`. -/
def afterFirstColon (s : String) : String :=
  match splitOnChar ':' s.toList with
  | [] => s
  | [_] => s
  | _ :: rest => String.intercalate ":" (rest.map String.mk)

/-- The last colon-separated field, or the whole string when it has no
colon: models Python's `line.split(":")[-1]`. -/
def lastColonField (s : String) : String :=
  ((splitOnChar ':' s.toList).map String.mk).getLastD s

/-! ## Numeric display formatting

`pyFmt1` models CPython's `f"{num/div:.1f}"` for natural `num`, `div`
(`div > 0`): the quotient is rounded to one decimal digit, ties to even
(see the header note on float fidelity). -/

/-- Number of tenths of `num / div`, rounded to nearest with ties to
even. -/
def roundTenths (num div : Nat) : Nat :=
  let q := num * 10
  let k := q / div
  let r := q % div
  if 2 * r < div then k
  else if div < 2 * r then k + 1
  else if k % 2 == 0 then k else k + 1

/-- Decimal rendering `"<int>.<tenth>"` of `num / div` with one decimal
digit: models `f"{num/div:.1f}"`. -/
def pyFmt1 (num div : Nat) : String :=
  let t := roundTenths num div
  toString (t / 10) ++ "." ++ toString (t % 10)

/-- backend/utils/helpers.py, `format_large_number`: the shared K/M/B
suffix formatter. -/
def format_large_number (num : Nat) : String :=
  if num ≥ 1000000000 then pyFmt1 num 1000000000 ++ "B"
  else if num ≥ 1000000 then pyFmt1 num 1000000 ++ "M"
  else if num ≥ 1000 then pyFmt1 num 1000 ++ "K"
  else toString num

/-- backend/utils/youtube_api.py, `YouTubeAPI._format_subscriber_count`
(the string argument is parsed with `int(...)` first; we take the
already-parsed natural). Note: no billions band. -/
def yt_format_subscriber_count (count : Nat) : String :=
  if count ≥ 1000000 then pyFmt1 count 1000000 ++ "M"
  else if count ≥ 1000 then pyFmt1 count 1000 ++ "K"
  else toString count

/-- backend/utils/instagram_api.py, `InstagramAPI._format_count`.
Note: no billions band. -/
def ig_format_count (count : Nat) : String :=
  if count ≥ 1000000 then pyFmt1 count 1000000 ++ "M"
  else if count ≥ 1000 then pyFmt1 count 1000 ++ "K"
  else toString count

/-- backend/utils/github_api.py, `GitHubAPI.format_follower_count`
(static helper; not called by the orchestrator). Note: no billions
band. -/
def gh_format_follower_count (count : Nat) : String :=
  if count ≥ 1000000 then pyFmt1 count 1000000 ++ "M"
  else if count ≥ 1000 then pyFmt1 count 1000 ++ "K"
  else toString count

/-- The follower display actually produced by the orchestrator's GitHub
fetch node: the raw integer followed by " followers"
(creator_analyzer.py line 176). -/
def gh_follower_display (followers : Nat) : String :=
  toString followers ++ " followers"

/-- Modelled from the spec's words (section 4.2, "Numeric formatting"),
for comparison with the source formatters: bands for B, M, K, else the
plain integer.  This is the claimed behaviour, not code of the
repository. -/
def specFormatKMB (num : Nat) : String :=
  if num ≥ 1000000000 then pyFmt1 num 1000000000 ++ "B"
  else if num ≥ 1000000 then pyFmt1 num 1000000 ++ "M"
  else if num ≥ 1000 then pyFmt1 num 1000 ++ "K"
  else toString num

/-- Modelled from the spec's words with the billions band removed (the
amended formatting contract): bands for M and K, else the plain
integer. -/
def specFormatKM (num : Nat) : String :=
  if num ≥ 1000000 then pyFmt1 num 1000000 ++ "M"
  else if num ≥ 1000 then pyFmt1 num 1000 ++ "K"
  else toString num

/-! ## Platform detection (backend/utils/helpers.py) -/

/-- helpers.py, `PlatformType`. -/
inductive PlatformType
  | youtube | github | instagram | unknown
deriving DecidableEq, Repr

/-- The `.value` of each `PlatformType` member (it is a string enum). -/
def PlatformType.value : PlatformType → String
  | .youtube => "youtube"
  | .github => "github"
  | .instagram => "instagram"
  | .unknown => "unknown"

/-- Python's `url.lower().strip()` as performed by `detect_platform`. -/
def pyLowerStrip (url : String) : String :=
  pyStrip (toLowerS url)

/-- helpers.py, `detect_platform`. -/
def detect_platform (url : String) : PlatformType :=
  let u := pyLowerStrip url
  if strContains u "youtube.com" || strContains u "youtu.be" then .youtube
  else if strContains u "github.com" then .github
  else if strContains u "instagram.com" || strContains u "instagr.am" then .instagram
  else .unknown

/-! ## Python's stable descending sort

Each Python call site uses `sorted(xs, key=..., reverse=True)`.  A stable
sort with the "key a ≥ key b" comparator produces exactly the same list
as Python's (stable) sort with `reverse=True`, whatever the sorting
algorithm, so we use Mathlib's stable `List.insertionSort`. -/

/-- `sorted(l, key=key, reverse=True)`: stable, larger keys first. -/
def pySortDesc (key : α → Nat) (l : List α) : List α :=
  l.insertionSort (fun a b => key b ≤ key a)

theorem pySortDesc_perm (key : α → Nat) (l : List α) :
    (pySortDesc key l).Perm l :=
  List.perm_insertionSort _ l

theorem pySortDesc_sorted (key : α → Nat) (l : List α) :
    (pySortDesc key l).Pairwise (fun a b => key b ≤ key a) := by
  letI : IsTotal α (fun a b => key b ≤ key a) := ⟨fun a b => le_total (key b) (key a)⟩
  letI : IsTrans α (fun a b => key b ≤ key a) := ⟨fun _ _ _ h h' => le_trans h' h⟩
  exact List.sorted_insertionSort _ l

theorem pySortDesc_mem (key : α → Nat) (l : List α) (a : α) :
    a ∈ pySortDesc key l ↔ a ∈ l :=
  (pySortDesc_perm key l).mem_iff

/-! ## GitHub client (backend/utils/github_api.py) -/

/-- One entry of the repository list built by `GitHubAPI.get_user_repos`
from the REST response. -/
structure GHRepo where
  name : String
  full_name : String
  description : Option String  -- the API reports null descriptions
  url : String
  stars : Nat
  forks : Nat
  watchers : Nat
  language : Option String
  created_at : String
  updated_at : String
  topics : List String
  is_fork : Bool
  size : Nat
deriving DecidableEq, Repr

/-- The profile dictionary built by `GitHubAPI.get_user_profile` from the
REST response.  `name`/`bio` may be `None` in Python
(`data.get('name', '')` keeps an explicit null); `None` and `""` take
identical paths downstream (both are falsy), so they are collapsed to
`""` here. -/
structure GHProfile where
  username : String
  name : String
  bio : String
  followers : Nat
  following : Nat
  public_repos : Nat
  avatar_url : String
  blog : String
  location : String
  company : String
  twitter_username : String
  created_at : String
  profile_url : String
deriving DecidableEq, Repr

/-- The activity summary built by `GitHubAPI.get_user_activity_summary`.
Its construction is pure reshaping of the events response (and its
iteration over a Python `set` is not deterministic), and no pipeline
stage reads it, so it is provided by the environment stub directly. -/
structure GHActivity where
  total_events : Nat
  event_types : List (String × Nat)
  active_repos_count : Nat
  recent_repos : List String
deriving DecidableEq, Repr

/-- The comprehensive record returned by `GitHubAPI.analyze_url`. -/
structure GHData where
  profile : GHProfile
  top_repo_readme : Option String := none
  top_repo : Option GHRepo := none
  top_languages : List String := []
  activity : GHActivity
  top_repos : List GHRepo := []
  repo_descriptions : List String := []
deriving Repr

/-! ## Raw payload shapes of the YouTube and Instagram clients -/

/-- One entry of the video list built by `YouTubeAPI.get_top_videos`. -/
structure YTVideo where
  video_id : String
  title : String
  description : String
  published_at : String
  thumbnail : String
  view_count : Nat
  like_count : Nat
  comment_count : Nat
  duration : String
deriving DecidableEq, Repr

/-- The snippet/statistics payload `YouTubeAPI.get_channel_stats` decodes
(`subscriberCount`/`viewCount`/`videoCount` may be absent; the code
defaults them to 0).  A missing mandatory field raises a KeyError in
Python, which the surrounding handler turns into `None` — covered by the
stub returning `none` for the whole payload. -/
structure YTChannelRaw where
  title : String
  description : String
  subscriberCount : Option Nat
  viewCount : Option Nat
  videoCount : Option Nat
  thumbnail : String
  customUrl : Option String
deriving DecidableEq, Repr

/-- The channel dictionary built by `YouTubeAPI.get_channel_stats`. -/
structure YTChannelData where
  channel_id : String
  title : String
  description : String
  subscribers : String
  subscriber_count_raw : Nat
  view_count : Nat
  video_count : Nat
  thumbnail : String
  custom_url : String
  top_video_transcript : Option String := none
  top_video : Option YTVideo := none
  top_videos : List YTVideo := []
  video_titles : List String := []
deriving DecidableEq, Repr

/-- One media item of the Instagram business-discovery response (all
fields are read with `.get`, so each may be null/absent). -/
structure IGPost where
  caption : Option String
  media_type : Option String
  like_count : Nat    -- `post.get('like_count', 0)`
  comments_count : Nat
  permalink : Option String
deriving DecidableEq, Repr

/-- The business-discovery profile payload read by
`InstagramAPI.get_profile_from_username`.  Null and missing string fields
take identical downstream paths to `""` (falsy), and null numeric fields
to the `.get` default 0, so they are collapsed here. -/
structure IGProfileRaw where
  username : String
  name : String
  biography : String
  followers_count : Nat
  follows_count : Nat
  media_count : Nat
  website : Option String
deriving DecidableEq, Repr

/-- One entry of the `top_posts` list built by
`InstagramAPI.analyze_url` (live or mock). -/
structure IGTopPost where
  caption : String
  ptype : String    -- the dict key is "type"
  likes : Nat
  comments : Nat
  url : String
deriving DecidableEq, Repr

/-- The profile dictionary `InstagramAPI.analyze_url` returns on success
(live or mock). -/
structure IGData where
  username : String
  name : String
  followers : String
  following : Nat
  bio : String
  website : Option String
  posts_count : Nat
  top_posts : List IGTopPost
deriving DecidableEq, Repr

/-- `InstagramAPI.analyze_url` returns a dictionary that either carries a
sole "error" key or is a full profile record. -/
inductive IGResult
  | error (msg : String)
  | data (d : IGData)
deriving DecidableEq, Repr

/-- Environmental stubs: everything the pipeline obtains from outside the
repository (HTTP responses, SDK clients, credentials, the generative
model).  Each field returns the decoded payload its Python counterpart
would have produced; `none` / `[]` covers HTTP failures and exceptions
caught inside the corresponding helper. -/
structure Env where
  /-- Is YOUTUBE_API_KEY set? -/
  ytApiKey : Bool
  /-- channelId of the first result of `search().list(q=...)`, used by
  both handle and legacy-username resolution (the query string differs). -/
  ytSearchChannel : String → Option String
  /-- channelId reported by `videos().list(id=...)`. -/
  ytVideoChannel : String → Option String
  /-- snippet+statistics payload of `channels().list(id=...)`. -/
  ytChannelRaw : String → Option YTChannelRaw
  /-- the decoded video list produced by `get_top_videos` (search by view
  count joined with per-video statistics; pure reshaping). -/
  ytTopVideos : String → List YTVideo
  /-- result of `get_video_transcript` (external transcript service with
  internal language fallbacks; `none` = no captions). -/
  ytTranscript : String → Option String
  /-- decoded payload of `GET /users/{username}`. -/
  ghProfileRaw : String → Option GHProfile
  /-- decoded repo list of `GET /users/{username}/repos` for a page size. -/
  ghRepos : String → Nat → List GHRepo
  /-- README text of `get_repo_readme`. -/
  ghReadme : String → String → Option String
  /-- language byte counts of `GET /repos/{full_name}/languages`. -/
  ghRepoLangs : String → List (String × Nat)
  /-- result of `get_user_activity_summary`. -/
  ghActivity : String → GHActivity
  /-- Is INSTAGRAM_ACCESS_TOKEN set? -/
  igToken : Bool
  /-- Is INSTAGRAM_BUSINESS_ACCOUNT_ID set? -/
  igBizId : Bool
  /-- business_discovery profile payload (`none` covers request errors and
  an empty/falsy discovery object). -/
  igProfileRaw : String → Option IGProfileRaw
  /-- business_discovery media payload for a username and limit. -/
  igMedia : String → Nat → List IGPost
  /-- Is GEMINI_API_KEY set? (read by both the orchestrator and the
  summarizer). -/
  geminiKey : Bool
  /-- response text of the characterizer's model call for a user prompt;
  `none` models a raised exception. -/
  llmAnalyze : String → Option String
  /-- response text of the summarizer's model call for a user prompt;
  `none` models a raised exception. -/
  llmSummarize : String → Option String

/-- github_api.py, `GitHubAPI.extract_username_from_url`: two ordered
patterns share one deny-list check; a denied or absent match falls
through to the next pattern. -/
def gh_extract_username_from_url (url : String) : Option String :=
  let deny := ["features", "pricing", "explore", "topics", "collections"]
  let l := url.toList
  match searchLitClass "github.com/".toList isWordChar l with
  | some u =>
    if u ∉ deny then some u
    else
      match searchLitClassSlash "github.com/".toList isWordChar l with
      | some v => if v ∉ deny then some v else none
      | none => none
  | none =>
    match searchLitClassSlash "github.com/".toList isWordChar l with
    | some v => if v ∉ deny then some v else none
    | none => none

/-- github_api.py, `GitHubAPI.get_user_profile` (one guarded REST call). -/
def gh_get_user_profile (env : Env) (username : String) : Option GHProfile :=
  env.ghProfileRaw username

/-- github_api.py, `GitHubAPI.get_user_repos`. -/
def gh_get_user_repos (env : Env) (username : String) (max_results : Nat) : List GHRepo :=
  env.ghRepos username max_results

/-- github_api.py, `GitHubAPI.get_top_repos_by_stars`: fetch up to 30
repos, drop forks, stable-sort by stars descending, truncate. -/
def gh_get_top_repos_by_stars (env : Env) (username : String) (max_results : Nat) :
    List GHRepo :=
  let repos := gh_get_user_repos env username 30
  let original_repos := repos.filter (fun r => !r.is_fork)
  let sorted_repos := pySortDesc (fun r => r.stars) original_repos
  sorted_repos.take max_results

/-- Insertion-ordered accumulation of `language_stats[lang] += bytes`. -/
def updateAssoc (m : List (String × Nat)) (k : String) (v : Nat) : List (String × Nat) :=
  match m with
  | [] => [(k, v)]
  | (k', v') :: rest =>
    if k' = k then (k', v' + v) :: rest else (k', v') :: updateAssoc rest k v

/-- github_api.py, `GitHubAPI.get_user_languages`: byte-weighted language
totals across the non-fork repositories of the 30-repo page. -/
def gh_get_user_languages (env : Env) (username : String) : List (String × Nat) :=
  let repos := gh_get_user_repos env username 30
  repos.foldl
    (fun stats repo =>
      if repo.is_fork then stats
      else (env.ghRepoLangs repo.full_name).foldl
        (fun s lv => updateAssoc s lv.1 lv.2) stats)
    []

/-- github_api.py, `GitHubAPI.analyze_url`: username extraction, profile
fetch, top-repo ranking, README/language/activity enrichment. -/
def gh_analyze_url (env : Env) (url : String) : Option GHData :=
  match gh_extract_username_from_url url with
  | none => none
  | some username =>
    match gh_get_user_profile env username with
    | none => none
    | some profile =>
      let top_repos := gh_get_top_repos_by_stars env username 5
      let readme := match top_repos.head? with
        | some top => env.ghReadme username top.name
        | none => none
      let languages := gh_get_user_languages env username
      let top_languages :=
        ((pySortDesc (fun lv => lv.2) languages).take 5).map (fun lv => lv.1)
      some {
        profile := profile
        top_repo_readme := readme
        top_repo := top_repos.head?
        top_languages := top_languages
        activity := env.ghActivity username
        top_repos := top_repos
        repo_descriptions := top_repos.filterMap (fun r =>
          match r.description with
          | some d => if d ≠ "" then some d else none
          | none => none)
      }

/-! ## YouTube client (backend/utils/youtube_api.py) -/

/-- youtube_api.py, `YouTubeAPI.extract_video_id_from_url`: three ordered
patterns, each capturing exactly 11 identifier characters. -/
def yt_extract_video_id_from_url (url : String) : Option String :=
  let l := url.toList
  match searchAltClassN ["youtube.com/watch?v=".toList, "youtu.be/".toList] isWordChar 11 l with
  | some v => some v
  | none =>
    match searchAltClassN ["youtube.com/embed/".toList] isWordChar 11 l with
    | some v => some v
    | none => searchAltClassN ["youtube.com/v/".toList] isWordChar 11 l

/-- youtube_api.py, `YouTubeAPI._get_channel_id_from_handle`: requires
the SDK client (API key) and a non-empty search result for the query
"@handle". -/
def yt_get_channel_id_from_handle (env : Env) (handle : String) : Option String :=
  if !env.ytApiKey then none
  else env.ytSearchChannel ("@" ++ handle)

/-- youtube_api.py, `YouTubeAPI._get_channel_id_from_username`: like the
handle lookup but the query is the bare username. -/
def yt_get_channel_id_from_username (env : Env) (username : String) : Option String :=
  if !env.ytApiKey then none
  else env.ytSearchChannel username

/-- youtube_api.py, `YouTubeAPI.extract_channel_id_from_url`: direct
channel-ID path, then handle path (two-step), then /c/ or /user/ path
(two-step). -/
def yt_extract_channel_id_from_url (env : Env) (url : String) : Option String :=
  let l := url.toList
  match searchLitClass "youtube.com/channel/".toList isWordChar l with
  | some cid => some cid
  | none =>
    match searchLitClass "youtube.com/@".toList isWordChar l with
    | some handle => yt_get_channel_id_from_handle env handle
    | none =>
      match searchAltLitClass ["youtube.com/c/".toList, "youtube.com/user/".toList]
          isWordChar l with
      | some username => yt_get_channel_id_from_username env username
      | none => none

/-- youtube_api.py, `YouTubeAPI.get_channel_from_video`. -/
def yt_get_channel_from_video (env : Env) (video_id : String) : Option String :=
  if !env.ytApiKey then none
  else env.ytVideoChannel video_id

/-- youtube_api.py, `YouTubeAPI.get_channel_stats`: decodes the channel
payload and formats the subscriber display. -/
def yt_get_channel_stats (env : Env) (channel_id : String) : Option YTChannelData :=
  if !env.ytApiKey then none
  else
    match env.ytChannelRaw channel_id with
    | none => none
    | some raw =>
      some {
        channel_id := channel_id
        title := raw.title
        description := raw.description
        subscribers := yt_format_subscriber_count (raw.subscriberCount.getD 0)
        subscriber_count_raw := raw.subscriberCount.getD 0
        view_count := raw.viewCount.getD 0
        video_count := raw.videoCount.getD 0
        thumbnail := raw.thumbnail
        custom_url := raw.customUrl.getD ""
      }

/-- youtube_api.py, `YouTubeAPI.get_top_videos` (search + statistics,
pure reshaping done by the stub). -/
def yt_get_top_videos (env : Env) (channel_id : String) (_max_results : Nat) : List YTVideo :=
  if !env.ytApiKey then []
  else env.ytTopVideos channel_id

/-- youtube_api.py, `YouTubeAPI.get_video_transcript` (external
transcript service; the English-first fallback chain lives behind the
stub). -/
def yt_get_video_transcript (env : Env) (video_id : String) : Option String :=
  env.ytTranscript video_id

/-- youtube_api.py, `YouTubeAPI.analyze_url`: video URLs resolve the
channel through the video, other URLs directly; then channel stats, top
videos and the top video's transcript. -/
def yt_analyze_url (env : Env) (url : String) : Option YTChannelData :=
  let channel_id :=
    match yt_extract_video_id_from_url url with
    | some video_id => yt_get_channel_from_video env video_id
    | none => yt_extract_channel_id_from_url env url
  match channel_id with
  | none => none
  | some cid =>
    match yt_get_channel_stats env cid with
    | none => none
    | some channel_data =>
      let top_videos := yt_get_top_videos env cid 5
      let channel_data :=
        match top_videos.head? with
        | some top =>
          { channel_data with
            top_video_transcript := yt_get_video_transcript env top.video_id
            top_video := some top }
        | none => channel_data
      some { channel_data with
             top_videos := top_videos
             video_titles := top_videos.map (fun v => v.title) }

/-! ## Instagram client (backend/utils/instagram_api.py) -/

/-- instagram_api.py, `InstagramAPI.extract_username`: two ordered
patterns with the class [^/?] and a deny-list of non-profile paths. -/
def ig_extract_username (url : String) : Option String :=
  let deny := ["p", "reel", "tv", "explore", "accounts"]
  let cls := fun (c : Char) => c ≠ '/' && c ≠ '?'
  let l := url.toList
  match searchLitClass "instagram.com/".toList cls l with
  | some u =>
    if u ∉ deny then some u
    else
      match searchLitClass "instagr.am/".toList cls l with
      | some v => if v ∉ deny then some v else none
      | none => none
  | none =>
    match searchLitClass "instagr.am/".toList cls l with
    | some v => if v ∉ deny then some v else none
    | none => none

/-- instagram_api.py, `InstagramAPI._generate_mock_data`: a hardcoded
record for the username "mkbhd" (case-insensitively), else a generic
templated mock. -/
def ig_generate_mock_data (username : String) : IGData :=
  if toLowerS username = "mkbhd" then
    { username := "mkbhd"
      name := "Marques Brownlee"
      followers := "19.2M"
      following := 345
      bio := "Tech reviews and unboxings 📱⚡️\nYouTube: MKBHD\nPodcast: Waveform"
      website := some "https://www.youtube.com/@mkbhd"
      posts_count := 4523
      top_posts := [
        { caption := "The new iPhone 16 Pro Max is here! Full review on YouTube 📱"
          ptype := "IMAGE", likes := 892000, comments := 12400
          url := "https://instagram.com/p/sample1" },
        { caption := "Behind the scenes of the studio setup 🎥"
          ptype := "VIDEO", likes := 756000, comments := 9800
          url := "https://instagram.com/p/sample2" },
        { caption := "Testing out the new camera tech 📸"
          ptype := "IMAGE", likes := 634000, comments := 7200
          url := "https://instagram.com/p/sample3" }] }
  else
    { username := username
      name := pyTitle ((username.toList.map (fun c => if c = '_' then ' ' else c)).asString)
      followers := "125K"
      following := 450
      bio := "Creator • Content enthusiast\nFollow for more!"
      website := none
      posts_count := 382
      top_posts := [
        { caption := "Latest content creation setup 🎬"
          ptype := "IMAGE", likes := 8900, comments := 234
          url := "https://instagram.com/p/" ++ username ++ "1" },
        { caption := "Behind the scenes 📸"
          ptype := "VIDEO", likes := 7600, comments := 189
          url := "https://instagram.com/p/" ++ username ++ "2" }] }

/-- instagram_api.py, `InstagramAPI.get_profile_from_username` (guarded
business-discovery call; its credential re-checks are subsumed by the
caller's guard). -/
def ig_get_profile_from_username (env : Env) (username : String) : Option IGProfileRaw :=
  if !env.igToken || !env.igBizId then none
  else env.igProfileRaw username

/-- instagram_api.py, `InstagramAPI.get_recent_media_from_username`. -/
def ig_get_recent_media_from_username (env : Env) (username : String) (limit : Nat) :
    List IGPost :=
  if !env.igToken || !env.igBizId then []
  else env.igMedia username limit

/-- instagram_api.py, `InstagramAPI.analyze_url`: an extraction failure
returns an error dictionary (not null); with full credentials and a
truthy discovery payload, the live record (top 3 posts by likes, captions
truncated to 100 characters, "No caption" placeholder); otherwise the
mock record. -/
def ig_analyze_url (env : Env) (url : String) : IGResult :=
  match ig_extract_username url with
  | none => .error "Could not extract Instagram username from URL"
  | some username =>
    if env.igToken && env.igBizId then
      match ig_get_profile_from_username env username with
      | some profile_data =>
        let media_data := ig_get_recent_media_from_username env username 6
        let top_posts := (pySortDesc (fun p => p.like_count) media_data).take 3
        .data {
          username := profile_data.username
          name := if profile_data.name ≠ "" then profile_data.name
                  else profile_data.username
          followers := ig_format_count profile_data.followers_count
          following := profile_data.follows_count
          bio := profile_data.biography
          website := profile_data.website
          posts_count := profile_data.media_count
          top_posts := top_posts.map (fun post =>
            { caption := match post.caption with
                | some c => if c ≠ "" then (c.toList.take 100).asString else "No caption"
                | none => "No caption"
              ptype := post.media_type.getD ""
              likes := post.like_count
              comments := post.comments_count
              url := post.permalink.getD "" }) }
      | none => .data (ig_generate_mock_data username)
    else .data (ig_generate_mock_data username)

/-! ## Transcript summarizer (backend/agents/summarizer_agent.py) -/

/-- One element of the transcript list built by the orchestrator's
`get_transcripts_node` (title always present there; `video_id` absent
for items without one; `transcript` nullable). -/
structure TranscriptItem where
  title : String
  transcript : Option String
  video_id : Option String
  description : String
deriving DecidableEq, Repr

/-- A transcript item with the added `summary` key (the spread
`{**item, 'summary': summary}` keeps every original field). -/
structure SummarizedItem where
  item : TranscriptItem
  summary : String
deriving DecidableEq, Repr

/-- The summarizer's user prompt (note the two trailing spaces after the
truncated transcript, as in the Python source). -/
def summarizerPrompt (title transcript : String) : String :=
  "Video Title: " ++ title ++ "\n\nTranscript:\n" ++
    (transcript.toList.take 3000).asString ++ "  \n\nProvide a brief summary (2-3 sentences):"

/-- summarizer_agent.py, `TranscriptSummarizer.summarize_transcript`:
mock summary without a model key; otherwise the trimmed model response,
or an error-tagged placeholder when the call raises. -/
def summarize_transcript (env : Env) (transcript : String) (video_title : String) : String :=
  if !env.geminiKey then "[Mock Summary] Video discusses: " ++ video_title
  else
    match env.llmSummarize (summarizerPrompt video_title transcript) with
    | some response => pyStrip response
    | none => "[Error] Could not summarize: " ++ video_title

/-- summarizer_agent.py,
`TranscriptSummarizer.summarize_multiple_transcripts`: per-item summary
policy folded back into each item. -/
def summarize_multiple_transcripts (env : Env) (transcripts : List TranscriptItem) :
    List SummarizedItem :=
  transcripts.map (fun item =>
    let transcript := item.transcript.getD ""
    let description := item.description
    let summary :=
      if transcript = "" && description = "" then
        "[No transcript or description available]"
      else if transcript = "" then
        "Video titled '" ++ item.title ++ "' - " ++
          (if description ≠ "" then (description.toList.take 200).asString
           else "No additional info")
      else summarize_transcript env transcript item.title
    { item := item, summary := summary })

/-! ## Orchestrator (backend/agents/creator_analyzer.py) -/

/-- One entry of the orchestrator's `top_videos` list.  The three fetch
nodes put differently-shaped dictionaries there; the constructors record
which keys each shape carries (an `Option`/absent field models a missing
dictionary key). -/
inductive ContentItem
  | video (title : String) (video_id : String) (view_count : Option Nat)
      (description : Option String)
  | repo (title : String) (description : Option String) (stars : Nat)
  | post (title : String) (likes : Nat) (comments : Nat) (ptype : String)
      (url : String)
deriving DecidableEq, Repr

/-- The common `title` key. -/
def ContentItem.title : ContentItem → String
  | .video t _ _ _ => t
  | .repo t _ _ => t
  | .post t _ _ _ _ => t

/-- `video.get("video_id")`: only video dictionaries carry the key. -/
def ContentItem.videoId : ContentItem → Option String
  | .video _ vid _ _ => some vid
  | _ => none

/-- `video.get("description", "")`: absent key (and the post shape,
which has no description key) gives `""`; a present null would also
print falsy downstream, collapsed likewise. -/
def ContentItem.descriptionD : ContentItem → String
  | .video _ _ _ d => d.getD ""
  | .repo _ d _ => d.getD ""
  | .post _ _ _ _ _ => ""

/-- `v.get('description', 'No description')` as rendered into the GitHub
context f-string: a repo's present-but-null description prints as
Python's "None". -/
def ContentItem.descriptionGH : ContentItem → String
  | .repo _ (some d) _ => d
  | .repo _ none _ => "None"
  | _ => "No description"

/-- `v.get('likes', 0)`. -/
def ContentItem.likes : ContentItem → Nat
  | .post _ l _ _ _ => l
  | _ => 0

/-- `v.get('comments', 0)`. -/
def ContentItem.comments : ContentItem → Nat
  | .post _ _ c _ _ => c
  | _ => 0

/-- The shaped record built by `format_output_node` (the
`final_output`). -/
structure FinalOutput where
  platform : String
  channel_name : String
  subscribers : String
  content_descriptor : String
  content_summary : String
  about : String
  top_content : List ContentItem
  summaries : List SummarizedItem
deriving DecidableEq, Repr

/-- creator_analyzer.py, `AnalyzerState`: the mutable record threaded
through the graph.  `final_output` starts as the empty dictionary,
modelled by `none`. -/
structure AnalyzerState where
  url : String
  platform : String := ""
  channel_name : String := ""
  subscribers : String := ""
  about : String := ""
  top_videos : List ContentItem := []
  transcripts : List TranscriptItem := []
  summaries : List SummarizedItem := []
  content_descriptor : String := ""
  content_summary : String := ""
  final_output : Option FinalOutput := none
  error : String := ""
deriving Repr

/-- The initial state `analyze` constructs for a request. -/
def initState (url : String) : AnalyzerState := { url := url }

/-- creator_analyzer.py, `detect_platform_node`. -/
def detect_platform_node (state : AnalyzerState) : AnalyzerState :=
  let platform := detect_platform state.url
  let state := { state with platform := platform.value }
  if platform = .unknown then
    { state with error := "Unsupported platform. Use YouTube or GitHub URL." }
  else state

/-- creator_analyzer.py, `MockDataGenerator.youtube_mock`'s fields used
by the fetch node. -/
def ytMockTitle : String := "Demo Tech Creator"
def ytMockSubscribers : String := "1.5M"
def ytMockDescription : String :=
  "Tech reviews, coding tutorials, and developer content"
def ytMockVideoTitles : List String :=
  ["Building a 3D Portfolio with React Three Fiber",
   "Why I Switched to Neovim (Developer Setup Tour)",
   "10 GitHub Projects That Changed My Career",
   "Real-time Collaboration with WebSockets",
   "My Honest Review of the M4 MacBook Pro"]

/-- creator_analyzer.py, `fetch_youtube_data_node`: mock profile without
an API key; otherwise the client fetch, an error on a null result, else
the top-2 video projection. -/
def fetch_youtube_data_node (env : Env) (state : AnalyzerState) : AnalyzerState :=
  if !env.ytApiKey then
    { state with
      channel_name := ytMockTitle
      subscribers := ytMockSubscribers
      about := ytMockDescription
      top_videos := (ytMockVideoTitles.take 2).enum.map (fun it =>
        .video it.2 ("mock_" ++ toString it.1) none none) }
  else
    match yt_analyze_url env state.url with
    | none => { state with error := "Failed to fetch YouTube data" }
    | some data =>
      { state with
        channel_name := data.title
        subscribers := data.subscribers
        about := data.description
        top_videos := (data.top_videos.take 2).map (fun video =>
          .video video.title video.video_id (some video.view_count)
            (some video.description)) }

/-- creator_analyzer.py, `fetch_github_data_node`. -/
def fetch_github_data_node (env : Env) (state : AnalyzerState) : AnalyzerState :=
  match gh_analyze_url env state.url with
  | none => { state with error := "Failed to fetch GitHub data" }
  | some data =>
    { state with
      channel_name := if data.profile.name ≠ "" then data.profile.name
                      else data.profile.username
      subscribers := gh_follower_display data.profile.followers
      about := data.profile.bio
      top_videos := (data.top_repos.take 2).map (fun repo =>
        .repo repo.name repo.description repo.stars) }

/-- creator_analyzer.py, `fetch_instagram_data_node`. -/
def fetch_instagram_data_node (env : Env) (state : AnalyzerState) : AnalyzerState :=
  match ig_analyze_url env state.url with
  | .error e => { state with error := e }
  | .data data =>
    { state with
      channel_name := if data.name ≠ "" then data.name else data.username
      subscribers := data.followers ++ " followers"
      about := data.bio
      top_videos := (data.top_posts.take 2).map (fun post =>
        .post (if post.caption ≠ "" then (post.caption.toList.take 100).asString
               else "Untitled Post")
          post.likes post.comments post.ptype post.url) }

/-- creator_analyzer.py, `get_transcripts_node`: items without a
`video_id` key get a null transcript; with the API key absent a fixed
mock transcript, else the transcript service result. -/
def get_transcripts_node (env : Env) (state : AnalyzerState) : AnalyzerState :=
  { state with
    transcripts := state.top_videos.map (fun video =>
      match video.videoId with
      | none =>
        { title := video.title, transcript := none, video_id := none
          description := video.descriptionD }
      | some video_id =>
        let transcript_text :=
          if !env.ytApiKey then
            some ("[Mock transcript for: " ++ video.title ++
              "] This video covers technical content related to the channel's niche.")
          else yt_get_video_transcript env video_id
        { title := video.title, transcript := transcript_text
          video_id := some video_id, description := video.descriptionD }) }

/-- creator_analyzer.py, `summarize_transcripts_node`. -/
def summarize_transcripts_node (env : Env) (state : AnalyzerState) : AnalyzerState :=
  { state with summaries := summarize_multiple_transcripts env state.transcripts }

/-- The characterizer's platform-specific context string. -/
def contentContext (state : AnalyzerState) : String :=
  if state.platform = "github" then
    String.intercalate "\n" (state.top_videos.map (fun v =>
      "- " ++ v.title ++ ": " ++ v.descriptionGH))
  else if state.platform = "instagram" then
    String.intercalate "\n" (state.top_videos.map (fun v =>
      "- Post: " ++ v.title ++ " (" ++ toString v.likes ++ " likes, " ++
        toString v.comments ++ " comments)"))
  else
    -- the `elif i < len(top_videos)` guard is exactly the some-ness of
    -- the checked index access
    let content_parts := state.summaries.enum.foldl (fun parts it =>
      if it.2.summary ≠ "" && !startsWithS it.2.summary "[No" then
        parts ++ ["- " ++ it.2.item.title ++ ": " ++ it.2.summary]
      else
        match state.top_videos[it.1]? with
        | some video =>
          let desc := (video.descriptionD.toList.take 150).asString
          parts ++ ["- " ++ video.title ++ ": " ++
            (if desc ≠ "" then desc else "Popular video")]
        | none => parts) []
    if content_parts ≠ [] then String.intercalate "\n" content_parts
    else "Channel creates content about: " ++ (state.about.toList.take 200).asString

/-- The characterizer's user prompt (the fixed system instruction is part
of the stubbed model call). -/
def analyzePrompt (state : AnalyzerState) : String :=
  "Creator: " ++ state.channel_name ++ "\nPlatform: " ++ toUpperS state.platform ++
  "\n\nAbout: " ++ state.about ++ "\n\nRecent Content:\n" ++ contentContext state ++
  "\n\nProvide:\n1. One-word descriptor:\n2. Short summary:"

/-- The line-oriented parse of the model response in
`analyze_content_node`: descriptor defaults to "Creator", summary to the
whole trimmed response; later matching lines overwrite earlier ones. -/
def parseAnalyzeResponse (result : String) : String × String :=
  let ds := ((splitOnChar '\n' result.toList).map String.mk).foldl
      (fun (ds : String × String) line =>
    if strContains (toLowerS line) "descriptor:" || startsWithS line "1." then
      (stripChars (fun c => c ∈ ['"', '\'', '*', '_', ' '])
        (pyStrip (lastColonField line)), ds.2)
    else if strContains (toLowerS line) "summary:" || startsWithS line "2." then
      (ds.1, pyStrip (afterFirstColon line))
    else ds) ("Creator", result)
  (pyStrip (pyReplace (pyReplace (pyReplace (pyReplace ds.1 "**" "") "__" "") "*" "") "_" ""),
   ds.2)

/-- creator_analyzer.py, `analyze_content_node`: fixed mock pair without
a model key; else the parsed model response, or the deterministic
fallback pair when the call raises. -/
def analyze_content_node (env : Env) (state : AnalyzerState) : AnalyzerState :=
  if !env.geminiKey then
    { state with
      content_descriptor := "Tech Educator"
      content_summary := state.channel_name ++
        " creates content focused on technology, development, and innovation." }
  else
    match env.llmAnalyze (analyzePrompt state) with
    | some response =>
      let parsed := parseAnalyzeResponse (pyStrip response)
      { state with content_descriptor := parsed.1, content_summary := parsed.2 }
    | none =>
      { state with
        content_descriptor := "Creator"
        content_summary := state.channel_name ++ " creates content on " ++
          state.platform ++ "." }

/-- creator_analyzer.py, `format_output_node`: the fixed-shape record
(`state.get("about") or ""` and `state.get("top_videos") or []` are
identities on the always-initialised string/list fields). -/
def format_output_node (state : AnalyzerState) : AnalyzerState :=
  { state with
    final_output := some {
      platform := state.platform
      channel_name := state.channel_name
      subscribers := state.subscribers
      content_descriptor := state.content_descriptor
      content_summary := state.content_summary
      about := state.about
      top_content := state.top_videos
      summaries := state.summaries } }

/-- creator_analyzer.py, `route_by_platform`: any truthy error routes to
the terminal; otherwise dispatch on the platform string. -/
def route_by_platform (state : AnalyzerState) : String :=
  if state.error ≠ "" then "error"
  else if state.platform = "youtube" then "youtube"
  else if state.platform = "github" then "github"
  else if state.platform = "instagram" then "instagram"
  else "error"

/-- The compiled graph of `_build_graph`: the only conditional edge is
the fan-out after platform detection; every later edge is unconditional,
so each fetch branch runs its whole chain to `format_output`. -/
def runWorkflow (env : Env) (state : AnalyzerState) : AnalyzerState :=
  let s1 := detect_platform_node state
  let route := route_by_platform s1
  if route = "youtube" then
    format_output_node (analyze_content_node env (summarize_transcripts_node env
      (get_transcripts_node env (fetch_youtube_data_node env s1))))
  else if route = "github" then
    format_output_node (analyze_content_node env (fetch_github_data_node env s1))
  else if route = "instagram" then
    format_output_node (analyze_content_node env (fetch_instagram_data_node env s1))
  else s1

/-- The two shapes `analyze` can return: the error dictionary with its
single message, or the state's `final_output` entry (still `none` when
`format_output` never ran — Python would return the initial empty
dictionary then). -/
inductive AnalyzeResult
  | error (msg : String)
  | ok (out : Option FinalOutput)
deriving Repr

/-- creator_analyzer.py, `CreatorAnalyzerAgent.analyze`: run the
workflow on a fresh state; a truthy final error yields the error
dictionary, else the final output. -/
def analyze (env : Env) (url : String) : AnalyzeResult :=
  let final_state := runWorkflow env (initState url)
  if final_state.error ≠ "" then .error final_state.error
  else .ok final_state.final_output

/-- A fully offline environment: no credentials configured, every
outbound call failing/empty.  Used to evaluate the pipeline on concrete
inputs. -/
def envNoNet : Env where
  ytApiKey := false
  ytSearchChannel := fun _ => none
  ytVideoChannel := fun _ => none
  ytChannelRaw := fun _ => none
  ytTopVideos := fun _ => []
  ytTranscript := fun _ => none
  ghProfileRaw := fun _ => none
  ghRepos := fun _ _ => []
  ghReadme := fun _ _ => none
  ghRepoLangs := fun _ => []
  ghActivity := fun _ =>
    { total_events := 0, event_types := [], active_repos_count := 0
      recent_repos := [] }
  igToken := false
  igBizId := false
  igProfileRaw := fun _ => none
  igMedia := fun _ _ => []
  geminiKey := false
  llmAnalyze := fun _ => none
  llmSummarize := fun _ => none

/-! ## Concrete fixtures used to evaluate the theorems -/

/-- A forked repository with the highest star count of its list. -/
def repoForkHot : GHRepo :=
  { name := "hot-fork", full_name := "u/hot-fork", description := some "a fork"
    url := "", stars := 100, forks := 0, watchers := 0, language := none
    created_at := "", updated_at := "", topics := [], is_fork := true, size := 0 }

/-- A non-fork repository with few stars. -/
def repoAlpha : GHRepo :=
  { name := "alpha", full_name := "u/alpha", description := some "first"
    url := "", stars := 5, forks := 0, watchers := 0, language := none
    created_at := "", updated_at := "", topics := [], is_fork := false, size := 0 }

/-- A non-fork repository with many stars. -/
def repoBeta : GHRepo :=
  { name := "beta", full_name := "u/beta", description := none
    url := "", stars := 50, forks := 0, watchers := 0, language := none
    created_at := "", updated_at := "", topics := [], is_fork := false, size := 0 }

/-- An environment whose GitHub repo listing interleaves a top-starred
fork with non-forks. -/
def envRepoTest : Env :=
  { envNoNet with ghRepos := fun _ _ => [repoForkHot, repoAlpha, repoBeta] }

/-- A transcript item with neither transcript nor description. -/
def itemNoInfo : TranscriptItem :=
  { title := "T", transcript := none, video_id := none, description := "" }

/-- A transcript item with an empty transcript but a description. -/
def itemDescOnly : TranscriptItem :=
  { title := "U", transcript := some "", video_id := none
    description := "some description" }

/-- The summarized form of `itemNoInfo`. -/
def summarizedNoInfo : SummarizedItem :=
  { item := itemNoInfo, summary := "[No transcript or description available]" }

/-- The summarized form of `itemDescOnly`. -/
def summarizedDescOnly : SummarizedItem :=
  { item := itemDescOnly, summary := "Video titled 'U' - some description" }

/-! ## Structural lemmas about the workflow nodes -/

theorem format_output_node_error (s : AnalyzerState) :
    (format_output_node s).error = s.error := rfl

theorem format_output_node_final (s : AnalyzerState) :
    (format_output_node s).final_output = some {
      platform := s.platform
      channel_name := s.channel_name
      subscribers := s.subscribers
      content_descriptor := s.content_descriptor
      content_summary := s.content_summary
      about := s.about
      top_content := s.top_videos
      summaries := s.summaries } := rfl

theorem analyze_content_node_error (env : Env) (s : AnalyzerState) :
    (analyze_content_node env s).error = s.error := by
  unfold analyze_content_node
  split
  · rfl
  · split <;> rfl

theorem analyze_content_node_channel_name (env : Env) (s : AnalyzerState) :
    (analyze_content_node env s).channel_name = s.channel_name := by
  unfold analyze_content_node
  split
  · rfl
  · split <;> rfl

theorem analyze_content_node_subscribers (env : Env) (s : AnalyzerState) :
    (analyze_content_node env s).subscribers = s.subscribers := by
  unfold analyze_content_node
  split
  · rfl
  · split <;> rfl

theorem analyze_content_node_top_videos (env : Env) (s : AnalyzerState) :
    (analyze_content_node env s).top_videos = s.top_videos := by
  unfold analyze_content_node
  split
  · rfl
  · split <;> rfl

theorem analyze_content_node_platform (env : Env) (s : AnalyzerState) :
    (analyze_content_node env s).platform = s.platform := by
  unfold analyze_content_node
  split
  · rfl
  · split <;> rfl

theorem get_transcripts_node_error (env : Env) (s : AnalyzerState) :
    (get_transcripts_node env s).error = s.error := rfl

theorem get_transcripts_node_channel_name (env : Env) (s : AnalyzerState) :
    (get_transcripts_node env s).channel_name = s.channel_name := rfl

theorem get_transcripts_node_subscribers (env : Env) (s : AnalyzerState) :
    (get_transcripts_node env s).subscribers = s.subscribers := rfl

theorem get_transcripts_node_top_videos (env : Env) (s : AnalyzerState) :
    (get_transcripts_node env s).top_videos = s.top_videos := rfl

theorem summarize_transcripts_node_error (env : Env) (s : AnalyzerState) :
    (summarize_transcripts_node env s).error = s.error := rfl

theorem summarize_transcripts_node_channel_name (env : Env) (s : AnalyzerState) :
    (summarize_transcripts_node env s).channel_name = s.channel_name := rfl

theorem summarize_transcripts_node_subscribers (env : Env) (s : AnalyzerState) :
    (summarize_transcripts_node env s).subscribers = s.subscribers := rfl

theorem summarize_transcripts_node_top_videos (env : Env) (s : AnalyzerState) :
    (summarize_transcripts_node env s).top_videos = s.top_videos := rfl

/-- The routing decision after detection, per detected platform. -/
theorem route_detect_youtube (url : String) (h : detect_platform url = .youtube) :
    route_by_platform (detect_platform_node (initState url)) = "youtube" := by
  simp [route_by_platform, detect_platform_node, initState, h, PlatformType.value]

theorem route_detect_github (url : String) (h : detect_platform url = .github) :
    route_by_platform (detect_platform_node (initState url)) = "github" := by
  simp [route_by_platform, detect_platform_node, initState, h, PlatformType.value]

theorem route_detect_instagram (url : String) (h : detect_platform url = .instagram) :
    route_by_platform (detect_platform_node (initState url)) = "instagram" := by
  simp [route_by_platform, detect_platform_node, initState, h, PlatformType.value]

theorem route_detect_unknown (url : String) (h : detect_platform url = .unknown) :
    route_by_platform (detect_platform_node (initState url)) = "error" := by
  simp [route_by_platform, detect_platform_node, initState, h, PlatformType.value]

theorem runWorkflow_youtube (env : Env) (url : String)
    (h : detect_platform url = .youtube) :
    runWorkflow env (initState url) =
      format_output_node (analyze_content_node env (summarize_transcripts_node env
        (get_transcripts_node env
          (fetch_youtube_data_node env (detect_platform_node (initState url)))))) := by
  simp only [runWorkflow]
  rw [route_detect_youtube url h, if_pos rfl]

theorem runWorkflow_github (env : Env) (url : String)
    (h : detect_platform url = .github) :
    runWorkflow env (initState url) =
      format_output_node (analyze_content_node env
        (fetch_github_data_node env (detect_platform_node (initState url)))) := by
  simp only [runWorkflow]
  rw [route_detect_github url h, if_neg (by decide), if_pos rfl]

theorem runWorkflow_instagram (env : Env) (url : String)
    (h : detect_platform url = .instagram) :
    runWorkflow env (initState url) =
      format_output_node (analyze_content_node env
        (fetch_instagram_data_node env (detect_platform_node (initState url)))) := by
  simp only [runWorkflow]
  rw [route_detect_instagram url h, if_neg (by decide), if_neg (by decide), if_pos rfl]

theorem runWorkflow_unknown (env : Env) (url : String)
    (h : detect_platform url = .unknown) :
    runWorkflow env (initState url) = detect_platform_node (initState url) := by
  simp only [runWorkflow]
  rw [route_detect_unknown url h, if_neg (by decide), if_neg (by decide), if_neg (by decide)]

theorem detect_platform_node_url (s : AnalyzerState) :
    (detect_platform_node s).url = s.url := by
  simp only [detect_platform_node]
  split <;> rfl

theorem initState_url (url : String) : (initState url).url = url := rfl

theorem detect_node_error_of_unknown (url : String)
    (h : detect_platform url = .unknown) :
    (detect_platform_node (initState url)).error =
      "Unsupported platform. Use YouTube or GitHub URL." := by
  simp [detect_platform_node, h, initState]

/-- On every non-Unknown run the workflow's last node is
`format_output_node`, so the final state carries a built output
record. -/
theorem runWorkflow_final_output (env : Env) (url : String)
    (h : detect_platform url ≠ .unknown) :
    ∃ out, (runWorkflow env (initState url)).final_output = some out := by
  cases hd : detect_platform url
  · rw [runWorkflow_youtube env url hd]; exact ⟨_, format_output_node_final _⟩
  · rw [runWorkflow_github env url hd]; exact ⟨_, format_output_node_final _⟩
  · rw [runWorkflow_instagram env url hd]; exact ⟨_, format_output_node_final _⟩
  · exact absurd hd h

/-! ## The claims -/

/-- C1: for every environment and input URL, `analyze` returns either the
complete shaped record built by the output formatter or an error result
carrying a single message; no third shape (in particular, never the
initial empty output of a run that bypassed the formatter) is
possible. -/
theorem analyze_two_shapes (env : Env) (url : String) :
    (∃ msg, analyze env url = .error msg) ∨
    (∃ out, analyze env url = .ok (some out)) := by
  unfold analyze
  by_cases herr : (runWorkflow env (initState url)).error = ""
  · right
    by_cases hu : detect_platform url = .unknown
    · exfalso
      rw [runWorkflow_unknown env url hu] at herr
      rw [detect_node_error_of_unknown url hu] at herr
      exact absurd herr (by decide)
    · obtain ⟨out, hout⟩ := runWorkflow_final_output env url hu
      exact ⟨out, by rw [if_neg (not_not_intro herr), hout]⟩
  · exact Or.inl ⟨(runWorkflow env (initState url)).error, by rw [if_pos herr]⟩

/-- C2 counterexample: a GitHub URL whose fetch fails (here the deny-listed
username "features", on which the client returns null).  The claim says
the Error terminal is then reached and no further stage runs; in the
code, the edges after the fetch nodes are unconditional, so the
characterizer still runs (it overwrites `content_descriptor` with
"Tech Educator") and the output formatter still builds `final_output`,
with the error field set the whole time. -/
theorem error_then_stages_still_run_cex :
    (runWorkflow envNoNet (initState "https://github.com/features")).error =
        "Failed to fetch GitHub data" ∧
    (runWorkflow envNoNet (initState "https://github.com/features")).content_descriptor =
        "Tech Educator" ∧
    (runWorkflow envNoNet (initState "https://github.com/features")).final_output.isSome =
        true := by
  refine ⟨?_, ?_, ?_⟩ <;> rfl

/-- C2 amended: the Error *terminal* (the conditional edge to END) is
reached iff platform detection yields Unknown, and only then does the run
stop after detection.  A fetch-stage failure instead sets the error field
while the remaining stages still execute (see the counterexample); the
orchestrator nevertheless returns only the error message, because it
checks the final error field before returning. -/
theorem error_routing_amended (env : Env) (url : String) :
    (route_by_platform (detect_platform_node (initState url)) = "error" ↔
      detect_platform url = .unknown) ∧
    (detect_platform url = .unknown →
      runWorkflow env (initState url) = detect_platform_node (initState url)) ∧
    (∀ msg, analyze env url = .error msg ↔
      ((runWorkflow env (initState url)).error = msg ∧ msg ≠ "")) ∧
    (detect_platform url = .github → gh_analyze_url env url = none →
      analyze env url = .error "Failed to fetch GitHub data" ∧
      (runWorkflow env (initState url)).final_output.isSome = true) := by
  refine ⟨?_, runWorkflow_unknown env url, ?_, ?_⟩
  · constructor
    · intro hr
      by_contra hu
      cases hd : detect_platform url
      · rw [route_detect_youtube url hd] at hr; exact absurd hr (by decide)
      · rw [route_detect_github url hd] at hr; exact absurd hr (by decide)
      · rw [route_detect_instagram url hd] at hr; exact absurd hr (by decide)
      · exact hu hd
    · exact route_detect_unknown url
  · intro msg
    unfold analyze
    by_cases herr : (runWorkflow env (initState url)).error = ""
    · rw [if_neg (not_not_intro herr)]
      constructor
      · intro h; exact absurd h (by simp)
      · rintro ⟨h1, h2⟩; exact absurd (h1.symm.trans herr) h2
    · rw [if_pos herr]
      constructor
      · intro h
        injection h with h'
        exact ⟨h', fun hmsg => herr (h'.trans hmsg)⟩
      · rintro ⟨h1, _⟩; rw [h1]
  · intro hgh hfail
    have hrun := runWorkflow_github env url hgh
    have hfail' : gh_analyze_url env (detect_platform_node (initState url)).url = none := by
      rw [detect_platform_node_url, initState_url]; exact hfail
    have hfetch : fetch_github_data_node env (detect_platform_node (initState url)) =
        { detect_platform_node (initState url) with
          error := "Failed to fetch GitHub data" } := by
      unfold fetch_github_data_node
      rw [hfail']
    constructor
    · simp only [analyze]
      rw [hrun, hfetch]
      rw [format_output_node_error, analyze_content_node_error]
      simp
    · rw [hrun, format_output_node_final]
      rfl

/-- C3 counterexample: a count of 1,500,000,000 (≥ one billion).  The
claim says all three platforms render it in the "{x:.1f}B" form
("1.5B"); the YouTube and Instagram formatters have no billions band and
render "1500.0M", and the orchestrator's GitHub follower display is the
raw integer with no suffix formatting at all. -/
theorem billions_band_cex :
    yt_format_subscriber_count 1500000000 = "1500.0M" ∧
    ig_format_count 1500000000 = "1500.0M" ∧
    gh_follower_display 1500000000 = "1500000000 followers" ∧
    specFormatKMB 1500000000 = "1.5B" ∧
    ("1500.0M" : String) ≠ "1.5B" := by
  refine ⟨rfl, rfl, rfl, rfl, by decide⟩

/-- C3 amended: counts ≥ 1,000,000 render as "{x:.1f}M" (with no
billions band, so a count ≥ 10^9 renders as a large M value), counts
≥ 1,000 as "{x:.1f}K", and smaller counts as the plain integer string —
identically in the YouTube and Instagram formatters (and GitHub's unused
static helper); the follower display the orchestrator actually builds for
GitHub is the raw integer followed by " followers".  The full K/M/B
banding of the spec exists only in the shared helper
`format_large_number`, which no platform's follower display calls. -/
theorem count_formatting_amended (n : Nat) :
    yt_format_subscriber_count n = specFormatKM n ∧
    ig_format_count n = specFormatKM n ∧
    gh_format_follower_count n = specFormatKM n ∧
    gh_follower_display n = toString n ++ " followers" ∧
    format_large_number n = specFormatKMB n :=
  ⟨rfl, rfl, rfl, rfl, rfl⟩

/-- C10: the shared formatter does not always normalise to the largest
applicable unit — one-decimal rounding carries just-below-threshold
inputs into the next magnitude: 999,999 renders as "1000.0K" (not
"1.0M"), and 999,999,999 as "1000.0M" (not "1.0B"). -/
theorem rounding_carry_at_band_edges :
    format_large_number 999999 = "1000.0K" ∧
    format_large_number 999999 ≠ "1.0M" ∧
    format_large_number 999999999 = "1000.0M" ∧
    format_large_number 999999999 ≠ "1.0B" := by
  refine ⟨rfl, by decide, rfl, by decide⟩

/-- C2 amended, evaluated: an unknown-platform URL stops at detection and
returns its error; a deny-listed GitHub URL is a fetch failure whose run
still builds the final output while analyze returns only the error. -/
theorem error_routing_amended_witness :
    detect_platform "https://example.com/" = .unknown ∧
    runWorkflow envNoNet (initState "https://example.com/") =
      detect_platform_node (initState "https://example.com/") ∧
    analyze envNoNet "https://example.com/" =
      .error "Unsupported platform. Use YouTube or GitHub URL." ∧
    analyze envNoNet "https://github.com/features" =
      .error "Failed to fetch GitHub data" ∧
    (runWorkflow envNoNet (initState "https://github.com/features")).final_output.isSome =
      true :=
  ⟨rfl,
   (error_routing_amended envNoNet "https://example.com/").2.1 rfl,
   ((error_routing_amended envNoNet "https://example.com/").2.2.1
      "Unsupported platform. Use YouTube or GitHub URL.").mpr ⟨rfl, by decide⟩,
   ((error_routing_amended envNoNet "https://github.com/features").2.2.2 rfl rfl).1,
   ((error_routing_amended envNoNet "https://github.com/features").2.2.2 rfl rfl).2⟩

/-- C4: a URL whose lowercased, stripped form contains a known hostname
fragment is detected as that platform, fragments checked in the fixed
priority order YouTube, GitHub, Instagram (first match wins); with no
known fragment, detection yields Unknown.  Stating the hypotheses on
`pyLowerStrip url` captures insensitivity to case (and to scheme or
trailing path, which only add surrounding characters). -/
theorem detect_platform_fragments (url : String) :
    ((strContains (pyLowerStrip url) "youtube.com" ||
        strContains (pyLowerStrip url) "youtu.be") = true →
      detect_platform url = .youtube) ∧
    ((strContains (pyLowerStrip url) "youtube.com" ||
        strContains (pyLowerStrip url) "youtu.be") = false →
      strContains (pyLowerStrip url) "github.com" = true →
      detect_platform url = .github) ∧
    ((strContains (pyLowerStrip url) "youtube.com" ||
        strContains (pyLowerStrip url) "youtu.be") = false →
      strContains (pyLowerStrip url) "github.com" = false →
      (strContains (pyLowerStrip url) "instagram.com" ||
        strContains (pyLowerStrip url) "instagr.am") = true →
      detect_platform url = .instagram) ∧
    ((strContains (pyLowerStrip url) "youtube.com" ||
        strContains (pyLowerStrip url) "youtu.be") = false →
      strContains (pyLowerStrip url) "github.com" = false →
      (strContains (pyLowerStrip url) "instagram.com" ||
        strContains (pyLowerStrip url) "instagr.am") = false →
      detect_platform url = .unknown) := by
  refine ⟨fun h1 => ?_, fun h1 h2 => ?_, fun h1 h2 h3 => ?_, fun h1 h2 h3 => ?_⟩
  · simp [detect_platform, h1]
  · simp [detect_platform, h1, h2]
  · simp [detect_platform, h1, h2, h3]
  · simp [detect_platform, h1, h2, h3]

/-- C4, evaluated on a mixed-case GitHub URL with scheme and trailing
path. -/
theorem detect_platform_fragments_witness :
    (strContains (pyLowerStrip "HTTPS://WWW.GitHub.COM/Octocat/Hello-World") "youtube.com" ||
      strContains (pyLowerStrip "HTTPS://WWW.GitHub.COM/Octocat/Hello-World") "youtu.be") = false ∧
    strContains (pyLowerStrip "HTTPS://WWW.GitHub.COM/Octocat/Hello-World") "github.com" = true ∧
    detect_platform "HTTPS://WWW.GitHub.COM/Octocat/Hello-World" = .github :=
  ⟨rfl, rfl,
   (detect_platform_fragments "HTTPS://WWW.GitHub.COM/Octocat/Hello-World").2.1 rfl rfl⟩

/-- C5 counterexample: on a URL with no extractable Instagram username,
the Instagram client does not return null/absent — it returns a
dictionary whose sole key is "error" (which is why the orchestrator's
Instagram node checks for an error key where the other two nodes check
for null). -/
theorem ig_extraction_error_dict_cex :
    ig_extract_username "https://example.com/profile" = none ∧
    ig_analyze_url envNoNet "https://example.com/profile" =
      .error "Could not extract Instagram username from URL" :=
  ⟨rfl, rfl⟩

/-- C5 amended: on extraction failure the YouTube and GitHub clients
return null (and raise nothing); the Instagram client instead returns a
dictionary with the single key "error".  For YouTube, "no identifier"
means the channel id resolves to null along whichever route (direct
extraction, or video-id extraction whose channel lookup fails). -/
theorem extraction_failure_returns (env : Env) (url : String) :
    (gh_extract_username_from_url url = none → gh_analyze_url env url = none) ∧
    (yt_extract_video_id_from_url url = none →
      yt_extract_channel_id_from_url env url = none →
      yt_analyze_url env url = none) ∧
    (∀ v, yt_extract_video_id_from_url url = some v →
      yt_get_channel_from_video env v = none →
      yt_analyze_url env url = none) ∧
    (ig_extract_username url = none →
      ig_analyze_url env url = .error "Could not extract Instagram username from URL") := by
  refine ⟨fun h => ?_, fun h1 h2 => ?_, fun v h1 h2 => ?_, fun h => ?_⟩
  · unfold gh_analyze_url
    rw [h]
  · simp [yt_analyze_url, h1, h2]
  · simp [yt_analyze_url, h1, h2]
  · unfold ig_analyze_url
    rw [h]

/-- C5 amended, evaluated: a foreign URL gives null from the GitHub and
YouTube clients and the error dictionary from the Instagram client; a
video URL whose channel lookup fails also gives null from YouTube. -/
theorem extraction_failure_returns_witness :
    gh_analyze_url envNoNet "https://example.com/x" = none ∧
    yt_analyze_url envNoNet "https://example.com/x" = none ∧
    yt_analyze_url envNoNet "https://youtu.be/dQw4w9WgXcQ" = none ∧
    ig_analyze_url envNoNet "https://example.com/x" =
      .error "Could not extract Instagram username from URL" :=
  ⟨(extraction_failure_returns envNoNet "https://example.com/x").1 rfl,
   (extraction_failure_returns envNoNet "https://example.com/x").2.1 rfl rfl,
   (extraction_failure_returns envNoNet "https://youtu.be/dQw4w9WgXcQ").2.2.1
     "dQw4w9WgXcQ" rfl rfl,
   (extraction_failure_returns envNoNet "https://example.com/x").2.2.2 rfl⟩

/-- C6: with the YouTube API credential absent, analyzing any YouTube
URL succeeds and returns the fixed mock profile fields verbatim: channel
name "Demo Tech Creator", subscriber display "1.5M", and top content
built from the first two mock video titles. -/
theorem mock_youtube_profile (env : Env) (url : String)
    (hkey : env.ytApiKey = false) (hyt : detect_platform url = .youtube) :
    ∃ out, analyze env url = .ok (some out) ∧
      out.channel_name = "Demo Tech Creator" ∧
      out.subscribers = "1.5M" ∧
      out.top_content = [
        .video "Building a 3D Portfolio with React Three Fiber" "mock_0" none none,
        .video "Why I Switched to Neovim (Developer Setup Tour)" "mock_1" none none] := by
  have hrun := runWorkflow_youtube env url hyt
  have hfetch : fetch_youtube_data_node env (detect_platform_node (initState url)) =
      { detect_platform_node (initState url) with
        channel_name := "Demo Tech Creator"
        subscribers := "1.5M"
        about := ytMockDescription
        top_videos := [
          .video "Building a 3D Portfolio with React Three Fiber" "mock_0" none none,
          .video "Why I Switched to Neovim (Developer Setup Tour)" "mock_1" none none] } := by
    unfold fetch_youtube_data_node
    rw [hkey]
    rfl
  have herr0 : (detect_platform_node (initState url)).error = "" := by
    simp [detect_platform_node, initState, hyt]
  have hne : detect_platform url ≠ .unknown := by rw [hyt]; exact fun hc => nomatch hc
  obtain ⟨out, hout⟩ := runWorkflow_final_output env url hne
  have hana : analyze env url = .ok (some out) := by
    unfold analyze
    have herr : (runWorkflow env (initState url)).error = "" := by
      rw [hrun, format_output_node_error, analyze_content_node_error,
        summarize_transcripts_node_error, get_transcripts_node_error, hfetch]
      exact herr0
    rw [if_neg (not_not_intro herr), hout]
  rw [hrun, format_output_node_final] at hout
  have hrec := Option.some.inj hout
  refine ⟨out, hana, ?_, ?_, ?_⟩
  · simp only [← hrec, analyze_content_node_channel_name,
      summarize_transcripts_node_channel_name, get_transcripts_node_channel_name, hfetch]
  · simp only [← hrec, analyze_content_node_subscribers,
      summarize_transcripts_node_subscribers, get_transcripts_node_subscribers, hfetch]
  · simp only [← hrec, analyze_content_node_top_videos,
      summarize_transcripts_node_top_videos, get_transcripts_node_top_videos, hfetch]

/-- C6, evaluated on a concrete YouTube URL in the offline
environment. -/
theorem mock_youtube_profile_witness :
    envNoNet.ytApiKey = false ∧
    detect_platform "https://www.youtube.com/@demo" = .youtube ∧
    ∃ out, analyze envNoNet "https://www.youtube.com/@demo" = .ok (some out) ∧
      out.channel_name = "Demo Tech Creator" ∧
      out.subscribers = "1.5M" ∧
      out.top_content = [
        .video "Building a 3D Portfolio with React Three Fiber" "mock_0" none none,
        .video "Why I Switched to Neovim (Developer Setup Tour)" "mock_1" none none] :=
  ⟨rfl, rfl, mock_youtube_profile envNoNet "https://www.youtube.com/@demo" rfl rfl⟩

/-- C7: the GitHub star ranking excludes every forked repository (even a
top-starred one), sorts the surviving non-forks by decreasing star
count, truncates to the requested maximum, and draws only from the
fetched repository list. -/
theorem top_repos_by_stars_spec (env : Env) (username : String) (max_results : Nat) :
    (∀ r ∈ gh_get_top_repos_by_stars env username max_results, r.is_fork = false) ∧
    (gh_get_top_repos_by_stars env username max_results).Pairwise
      (fun a b => b.stars ≤ a.stars) ∧
    (gh_get_top_repos_by_stars env username max_results).length ≤ max_results ∧
    (∀ r ∈ gh_get_top_repos_by_stars env username max_results,
      r ∈ gh_get_user_repos env username 30) := by
  unfold gh_get_top_repos_by_stars
  refine ⟨?_, ?_, ?_, ?_⟩
  · intro r hr
    have h1 := List.mem_of_mem_take hr
    rw [pySortDesc_mem] at h1
    simpa using (List.mem_filter.mp h1).2
  · exact (pySortDesc_sorted _ _).sublist (List.take_sublist _ _)
  · simp [List.length_take]
  · intro r hr
    exact (List.mem_filter.mp
      ((pySortDesc_mem _ _ _).mp (List.mem_of_mem_take hr))).1

/-- C7, evaluated: with a 100-star fork and two non-forks fetched, the
top-2 output retains the 50-star non-fork, keeps descending order, and
holds no forks. -/
theorem top_repos_by_stars_spec_witness :
    repoBeta ∈ gh_get_top_repos_by_stars envRepoTest "u" 2 ∧
    repoBeta.is_fork = false ∧
    (gh_get_top_repos_by_stars envRepoTest "u" 2).Pairwise
      (fun a b => b.stars ≤ a.stars) ∧
    repoForkHot ∉ gh_get_top_repos_by_stars envRepoTest "u" 2 :=
  ⟨by decide,
   (top_repos_by_stars_spec envRepoTest "u" 2).1 repoBeta (by decide),
   (top_repos_by_stars_spec envRepoTest "u" 2).2.1,
   by decide⟩

/-- C8: the batch summarizer returns one record per input, in order,
keeping every original field and adding a summary; with neither
transcript nor description the summary is the fixed placeholder, and
with only a description it is the sentence naming the title and the
first ≤ 200 characters of the description. -/
theorem summarize_batch_spec (env : Env) (transcripts : List TranscriptItem) :
    ((summarize_multiple_transcripts env transcripts).map (fun s => s.item) =
      transcripts) ∧
    ((summarize_multiple_transcripts env transcripts).length = transcripts.length) ∧
    (∀ s ∈ summarize_multiple_transcripts env transcripts,
      (s.item.transcript.getD "" = "" → s.item.description = "" →
        s.summary = "[No transcript or description available]") ∧
      (s.item.transcript.getD "" = "" → s.item.description ≠ "" →
        s.summary = "Video titled '" ++ s.item.title ++ "' - " ++
          (s.item.description.toList.take 200).asString)) := by
  unfold summarize_multiple_transcripts
  refine ⟨?_, by simp, ?_⟩
  · rw [List.map_map]
    exact List.map_id'' (fun x => rfl) transcripts
  · intro s hs
    obtain ⟨it, hmem, rfl⟩ := List.mem_map.mp hs
    refine ⟨fun h1 h2 => ?_, fun h1 h2 => ?_⟩
    · simp only [] at h1 h2 ⊢
      simp [h1, h2]
    · simp only [] at h1 h2 ⊢
      simp [h1, h2]

/-- C8, evaluated on a two-item batch (no info at all, and description
only). -/
theorem summarize_batch_spec_witness :
    summarizedNoInfo ∈ summarize_multiple_transcripts envNoNet [itemNoInfo, itemDescOnly] ∧
    summarizedNoInfo.summary = "[No transcript or description available]" ∧
    summarizedDescOnly ∈ summarize_multiple_transcripts envNoNet [itemNoInfo, itemDescOnly] ∧
    summarizedDescOnly.summary =
      "Video titled '" ++ summarizedDescOnly.item.title ++ "' - " ++
        (summarizedDescOnly.item.description.toList.take 200).asString :=
  ⟨by decide,
   ((summarize_batch_spec envNoNet [itemNoInfo, itemDescOnly]).2.2 summarizedNoInfo
      (by decide)).1 rfl rfl,
   by decide,
   ((summarize_batch_spec envNoNet [itemNoInfo, itemDescOnly]).2.2 summarizedDescOnly
      (by decide)).2 rfl (by decide)⟩

/-- C9: whatever profile the Instagram client returns, the fetch node
surfaces at most 2 top-content items, titling each with the first 100
characters of the post's caption, or "Untitled Post" when the caption is
empty. -/
theorem instagram_titles (env : Env) (st : AnalyzerState) (d : IGData)
    (h : ig_analyze_url env st.url = .data d) :
    (fetch_instagram_data_node env st).top_videos =
      (d.top_posts.take 2).map (fun post =>
        .post (if post.caption ≠ "" then (post.caption.toList.take 100).asString
               else "Untitled Post")
          post.likes post.comments post.ptype post.url) ∧
    (fetch_instagram_data_node env st).top_videos.length ≤ 2 := by
  unfold fetch_instagram_data_node
  rw [h]
  refine ⟨rfl, ?_⟩
  simp [List.length_take]

/-- C9, evaluated on the generic Instagram mock profile. -/
theorem instagram_titles_witness :
    ig_analyze_url envNoNet "https://www.instagram.com/some_user/" =
      .data (ig_generate_mock_data "some_user") ∧
    (fetch_instagram_data_node envNoNet
      (initState "https://www.instagram.com/some_user/")).top_videos.length ≤ 2 :=
  ⟨rfl,
   (instagram_titles envNoNet (initState "https://www.instagram.com/some_user/")
      (ig_generate_mock_data "some_user") rfl).2⟩

end HoloKit
